import Mathlib

/-!
# Verification of the lyrics-to-slides template-preserving document generator

A shallow embedding of the presentation-assembly core of the
`lyrics_to_slides` repository.  Slides, shapes and text runs are modelled
as inductive structures; the package is the ordered list of slides.  The
separator-insertion helper and the song-processing loop are translated
from the code in
`docs/plans/2025-02-11-separator-slides-title-cleanup-design.md`
(`backend/church_template.py`); the remaining operations of the core
(trim, clone, substitution, classification) are modelled from the design
specification, as noted on each definition.
-/

namespace LyricsToSlides

/-! ## Text model: runs, paragraphs, shapes, slides, packages -/

/-- A text run: the smallest unit carrying both text content and an opaque
bundle of formatting attributes (font, size, color, ...), here abstracted
as a number that substitution must preserve. -/
structure Run where
  text : String
  fmt  : Nat
deriving Repr, DecidableEq

/-- A paragraph: an ordered list of runs plus a flag recording whether a
bullet/numbering definition is attached to the paragraph. -/
structure Paragraph where
  runs   : List Run
  bullet : Bool
deriving Repr, DecidableEq

/-- A shape's bounding box (top, left, width, height). -/
structure Box where
  top    : Int
  left   : Int
  width  : Int
  height : Int
deriving Repr, DecidableEq

/-- A positioned visual element; its text frame is the paragraph list. -/
structure Shape where
  box        : Box
  paragraphs : List Paragraph
deriving Repr, DecidableEq

/-- A slide layout: its identity, the master/theme/background reference it
carries, and the default placeholder shapes it auto-populates on a newly
added slide. -/
structure Layout where
  id            : Nat
  themeRef      : Nat
  defaultShapes : List Shape
deriving Repr, DecidableEq

/-- One document page: a layout binding plus an ordered shape tree. -/
structure Slide where
  layout : Layout
  shapes : List Shape
deriving Repr, DecidableEq

/-- The document container: an ordered list of slides. -/
structure Package where
  slides : List Slide
deriving Repr, DecidableEq

/-- Placeholder slide used as the default of indexed lookups. -/
def defaultSlide : Slide :=
  { layout := { id := 0, themeRef := 0, defaultShapes := [] }, shapes := [] }

/-- Placeholder shape used as the default of indexed lookups. -/
def defaultShape : Shape :=
  { box := { top := 0, left := 0, width := 0, height := 0 }, paragraphs := [] }

/-- One song handed to the assembler: its raw title and the ordered list of
slide-body chunks (each chunk an ordered list of line strings). -/
structure Song where
  title  : String
  bodies : List (List String)
deriving Repr, DecidableEq

/-! ## Title cleanup

Embedding of `display_title = song_name.split(' by ')[0].strip()` from the
design document (the modified song loop of `backend/church_template.py`).
-/

/-- The delimiter of `song_name.split(' by ')`. -/
def bySep : List Char := ' ' :: 'b' :: 'y' :: ' ' :: []

/-- The characters before the first occurrence of `sep`, or the whole list
when `sep` does not occur: the `[0]` element of Python's `split(sep)`. -/
def takeBeforeSep (sep : List Char) : List Char → List Char
  | [] => []
  | c :: rest =>
    if sep.isPrefixOf (c :: rest) then [] else c :: takeBeforeSep sep rest

/-- Python's `.strip()`: remove leading and trailing whitespace. -/
def stripChars (s : List Char) : List Char :=
  ((s.dropWhile Char.isWhitespace).reverse.dropWhile Char.isWhitespace).reverse

/-- Does `sep` occur as a contiguous segment of the list?  (Statement
vocabulary for "the title contains the delimiter".) -/
def hasSegment (sep : List Char) : List Char → Bool
  | [] => sep.isEmpty
  | c :: rest => sep.isPrefixOf (c :: rest) || hasSegment sep rest

/-- Embeds `display_title = song_name.split(' by ')[0].strip()`
(design document, Modified Song Loop). -/
def display_title (song_name : String) : String :=
  String.mk (stripChars (takeBeforeSep bySep song_name.data))

/-! ## Slide directory -/

/-- Update the element at index `i` of a list, if present. -/
def updateAt {α : Type} (i : Nat) (f : α → α) : List α → List α
  | [] => []
  | a :: as =>
    match i with
    | 0 => f a :: as
    | n + 1 => a :: updateAt n f as

/-- The error taxonomy of the generation core. -/
inductive GenError where
  | TemplateUnreadable
  | TemplateTooShort
  | CloneError
  | SaveIOError
deriving Repr, DecidableEq

/-- Modelled from the spec: `slide_count(Package)`. -/
def slide_count (p : Package) : Nat := p.slides.length

/-- Modelled from the spec: `delete_last(Package)` removes the final slide
reference together with its relationship and part. -/
def delete_last (p : Package) : Package := { slides := p.slides.dropLast }

/-- The function `delete_last` iterated `k` times. -/
def trimLoop : Nat → Package → Package
  | 0, p => p
  | k + 1, p => trimLoop k (delete_last p)

/-- Modelled from the spec: `trim_to(Package, n)` repeatedly calls
`delete_last` until `slide_count == n`; fails with `TemplateTooShort` if
`n` exceeds the initial count. -/
def trim_to (p : Package) (n : Nat) : Except GenError Package :=
  if slide_count p < n then .error .TemplateTooShort
  else .ok (trimLoop (slide_count p - n) p)

/-! ## Shape classifier

Modelled from the spec: classification uses only the shape's bounding box
against three configured bands — vertical position for Title/Body, and the
combined vertical+horizontal bottom-right quadrant for PageNumber.
-/

/-- The semantic role of a shape. -/
inductive Role where
  | Title
  | Body
  | PageNumber
deriving Repr, DecidableEq

/-- Modelled from the spec: the template-specific band thresholds, passed
as configuration. -/
structure BandConfig where
  titleLow  : Int
  titleHigh : Int
  bodyLow   : Int
  bodyHigh  : Int
  pnTop     : Int
  pnLeft    : Int
deriving Repr, DecidableEq

/-- Modelled from the spec: `classify(shape)` assigns a role purely from
the bounding box; `none` is `Unclassified`. -/
def classify (cfg : BandConfig) (sh : Shape) : Option Role :=
  if cfg.pnTop ≤ sh.box.top && cfg.pnLeft ≤ sh.box.left then some .PageNumber
  else if cfg.titleLow ≤ sh.box.top && sh.box.top ≤ cfg.titleHigh then some .Title
  else if cfg.bodyLow ≤ sh.box.top && sh.box.top ≤ cfg.bodyHigh then some .Body
  else none

/-- Does the shape's text frame hold at least one run? -/
def shapeHasRun (sh : Shape) : Bool :=
  sh.paragraphs.any (fun p => !p.runs.isEmpty)

/-- Modelled from the spec: locate the shape of a given role, preferring a
matching shape with a non-empty text frame when several shapes match the
band.  Returns the index into the slide's shape list. -/
def locateRole (cfg : BandConfig) (r : Role) (shapes : List Shape) : Option Nat :=
  match shapes.findIdx? (fun sh => classify cfg sh == some r && shapeHasRun sh) with
  | some i => some i
  | none => shapes.findIdx? (fun sh => classify cfg sh == some r)

/-! ## Text substitution engine (modelled from the spec, §4.5) -/

/-- Replace the text of the first non-empty run of a run list; the flag
reports whether a replacement happened. -/
def replRunsNE (text : String) : List Run → List Run × Bool
  | [] => ([], false)
  | r :: rs =>
    if r.text ≠ "" then ({ r with text := text } :: rs, true)
    else
      let (rs2, b) := replRunsNE text rs
      (r :: rs2, b)

/-- Replace the text of the first non-empty run across a paragraph list. -/
def replParasNE (text : String) : List Paragraph → List Paragraph
  | [] => []
  | p :: ps =>
    let (rs, b) := replRunsNE text p.runs
    if b then { p with runs := rs } :: ps else p :: replParasNE text ps

/-- Replace the text of the head run of a run list, keeping its
formatting attributes. -/
def replRunsHead (text : String) : List Run → List Run
  | [] => []
  | r :: rs => { r with text := text } :: rs

/-- Replace the text of the first run (of the first paragraph that has
one), leaving everything else untouched. -/
def replParasFirst (text : String) : List Paragraph → List Paragraph
  | [] => []
  | p :: ps =>
    if p.runs.isEmpty then p :: replParasFirst text ps
    else { p with runs := replRunsHead text p.runs } :: ps

/-- The replacement `replParasFirst` lifted to a shape. -/
def shapeReplaceFirstRun (text : String) (sh : Shape) : Shape :=
  { sh with paragraphs := replParasFirst text sh.paragraphs }

/-- The text of the first run of a paragraph list, if any. -/
def parasFirstText? (paras : List Paragraph) : Option String :=
  match paras.find? (fun p => !p.runs.isEmpty) with
  | some p => p.runs.head?.map Run.text
  | none => none

/-- The text of the first run of the shape's text frame, if any. -/
def firstRunText? (sh : Shape) : Option String :=
  parasFirstText? sh.paragraphs

/-- Modelled from the spec: `set_title(slide, text)` replaces the text of
the first non-empty run of the Title-role shape. -/
def set_title (cfg : BandConfig) (s : Slide) (text : String) : Slide :=
  match locateRole cfg .Title s.shapes with
  | none => s
  | some i =>
    { s with shapes :=
        updateAt i (fun sh => { sh with paragraphs := replParasNE text sh.paragraphs }) s.shapes }

/-- A freshly written body paragraph: one plain run, no bullet. -/
def bodyParagraph (l : String) : Paragraph :=
  { runs := [{ text := l, fmt := 0 }], bullet := false }

/-- Replace a shape's whole text frame. -/
def setShapeParagraphs (paras : List Paragraph) (sh : Shape) : Shape :=
  { sh with paragraphs := paras }

/-- Clear a paragraph's bullet definition. -/
def clearBullet (p : Paragraph) : Paragraph :=
  { p with bullet := false }

/-- Modelled from the spec: `set_body(slide, lines)` replaces the whole
text frame of the Body-role shape, one paragraph per line, each new
paragraph carrying no bullet definition. -/
def set_body (cfg : BandConfig) (s : Slide) (lines : List String) : Slide :=
  match locateRole cfg .Body s.shapes with
  | none => s
  | some i =>
    { s with shapes :=
        updateAt i (setShapeParagraphs (lines.map bodyParagraph)) s.shapes }

/-- Modelled from the spec: `strip_bullets(slide)` clears the bullet
definition of every paragraph of the Body-role shape. -/
def strip_bullets (cfg : BandConfig) (s : Slide) : Slide :=
  match locateRole cfg .Body s.shapes with
  | none => s
  | some i =>
    { s with shapes :=
        updateAt i (fun sh => setShapeParagraphs (sh.paragraphs.map clearBullet) sh) s.shapes }

/-- The `"{current}/{total}"` page-number text. -/
def pageNumberText (current total : Nat) : String :=
  toString current ++ "/" ++ toString total

/-- Modelled from the spec: `set_page_number(slide, current, total)`
replaces the first run's text of the PageNumber-role shape with
`"{current}/{total}"`. -/
def set_page_number (cfg : BandConfig) (s : Slide) (current total : Nat) : Slide :=
  match locateRole cfg .PageNumber s.shapes with
  | none => s
  | some i =>
    { s with shapes :=
        updateAt i (shapeReplaceFirstRun (pageNumberText current total)) s.shapes }

/-! ## Slide cloner and separator inserter -/

/-- Modelled from the spec: `clone_slide` creates a new slide bound to the
same layout as the source (layout default shapes removed) and deep-copies
the source's shape tree in order. -/
def clone_slide (src : Slide) : Slide :=
  { layout := src.layout, shapes := src.shapes }

/-- Embeds `prs.slides.add_slide(layout)`: append a new slide bound to `layout`,
populated with the layout's default placeholder shapes. -/
def add_slide (prs : Package) (layout : Layout) : Package :=
  { slides := prs.slides ++ [{ layout := layout, shapes := layout.defaultShapes }] }

/-- Remove every shape from the slide at index `i`
(`for shape in list(new_slide.shapes): sp.getparent().remove(sp)`). -/
def removeAllShapesAt (prs : Package) (i : Nat) : Package :=
  { slides := updateAt i (fun s => { s with shapes := [] }) prs.slides }

/-- Embeds `insert_blank_separator(prs, separator_template)` from the design
document: add a slide bound to the separator template's layout, then
remove all its shapes to make it blank. -/
def insert_blank_separator (prs : Package) (separator_template : Slide) : Package :=
  let template_layout := separator_template.layout
  let prs2 := add_slide prs template_layout
  removeAllShapesAt prs2 prs.slides.length

/-- The blank slide an `insert_blank_separator` call appends: the
template's layout with an empty shape tree. -/
def blankSeparator (separator_template : Slide) : Slide :=
  { layout := separator_template.layout, shapes := [] }

/-! ## Document assembler

The song loop follows the Modified Song Loop of the design document
(`separator_template_slide = prs.slides[1]`; separator inserted when
`song_idx > 0`; `display_title` applied to the song name).  The trim /
template-deletion / save framing is modelled from the spec's state
machine (§4.7).
-/

/-- Modelled from the spec: the number of fixed front-matter slides kept
ahead of the lyric-template slide (Title and Welcome in the design
document's example flow). -/
def FIXED_FRONT_MATTER_COUNT : Nat := 2

/-- One generated lyric slide: clone the lyric-template slide, then
`set_title`, `set_body`, `strip_bullets`. -/
def preparedLyricSlide (cfg : BandConfig) (tmpl : Slide) (dt : String)
    (chunk : List String) : Slide :=
  strip_bullets cfg (set_body cfg (set_title cfg (clone_slide tmpl) dt) chunk)

/-- One generated lyric slide, page number included. -/
def makeLyricSlide (cfg : BandConfig) (tmpl : Slide) (dt : String)
    (chunk : List String) (current total : Nat) : Slide :=
  set_page_number cfg (preparedLyricSlide cfg tmpl dt chunk) current total

/-- Append one lyric slide per body chunk, numbering `cur/total` with
`cur` starting at 1 for the song. -/
def appendChunks (cfg : BandConfig) (tmpl : Slide) (dt : String)
    (total : Nat) : Nat → List (List String) → Package → Package
  | _, [], p => p
  | cur, chunk :: rest, p =>
    appendChunks cfg tmpl dt total (cur + 1) rest
      { slides := p.slides ++ [makeLyricSlide cfg tmpl dt chunk cur total] }

/-- Process one song: derive the display title, then emit its lyric
slides. -/
def appendSongSlides (cfg : BandConfig) (tmpl : Slide) (song : Song)
    (p : Package) : Package :=
  appendChunks cfg tmpl (display_title song.title) song.bodies.length 1 song.bodies p

/-- The song-processing loop of the design document: for `song_idx > 0`
insert a blank separator first, then the song's lyric slides. -/
def processSongs (cfg : BandConfig) (sepTmpl tmpl : Slide) :
    Nat → List Song → Package → Package
  | _, [], p => p
  | i, song :: rest, p =>
    let p1 := if 0 < i then insert_blank_separator p sepTmpl else p
    let p2 := appendSongSlides cfg tmpl song p1
    processSongs cfg sepTmpl tmpl (i + 1) rest p2

/-- Modelled from the spec (§4.7) around the design document's loop:
trim the template to the fixed front matter plus one lyric-template
slide, record the separator template (`prs.slides[1]`) and the
lyric-template slide, run the song loop, delete the recorded
lyric-template slide, and return the finished package. -/
def assemble (cfg : BandConfig) (template : Package) (songs : List Song) :
    Except GenError Package :=
  match trim_to template (FIXED_FRONT_MATTER_COUNT + 1) with
  | .error e => .error e
  | .ok trimmed =>
    let separator_template_slide := trimmed.slides.getD 1 defaultSlide
    let lyric_template_slide :=
      trimmed.slides.getD FIXED_FRONT_MATTER_COUNT defaultSlide
    let filled := processSongs cfg separator_template_slide lyric_template_slide
      0 songs trimmed
    .ok { slides := filled.slides.eraseIdx FIXED_FRONT_MATTER_COUNT }

/-- Sum of the slide-body chunk counts of a song list. -/
def sumBodies (songs : List Song) : Nat :=
  (songs.map (fun s => s.bodies.length)).sum

/-! ## Expected slide lists (specification views of the loop output) -/

/-- The lyric slides `appendChunks` emits, as a pure list. -/
def lyricSlides (cfg : BandConfig) (tmpl : Slide) (dt : String)
    (total : Nat) : Nat → List (List String) → List Slide
  | _, [] => []
  | cur, chunk :: rest =>
    makeLyricSlide cfg tmpl dt chunk cur total ::
      lyricSlides cfg tmpl dt total (cur + 1) rest

/-- The lyric slides of one song: numbering starts at 1 and the total is
the song's own chunk count. -/
def songLyricSlides (cfg : BandConfig) (tmpl : Slide) (song : Song) : List Slide :=
  lyricSlides cfg tmpl (display_title song.title) song.bodies.length 1 song.bodies

/-- The slides the loop emits for songs that each get a preceding
separator: one blank separator, then the song's lyric slides. -/
def songBlocksSep (cfg : BandConfig) (sepTmpl tmpl : Slide) (songs : List Song) :
    List Slide :=
  (songs.map (fun s => blankSeparator sepTmpl :: songLyricSlides cfg tmpl s)).flatten

/-- The slides `processSongs` emits starting at song index `i`. -/
def songBlocks (cfg : BandConfig) (sepTmpl tmpl : Slide) :
    Nat → List Song → List Slide
  | _, [] => []
  | i, song :: rest =>
    (if 0 < i then [blankSeparator sepTmpl] else []) ++
      songLyricSlides cfg tmpl song ++
      songBlocks cfg sepTmpl tmpl (i + 1) rest

/-- The separator-template slide the assembler records
(`prs.slides[1]`). -/
def separatorSource (template : Package) : Slide :=
  template.slides.getD 1 defaultSlide

/-- The lyric-template slide the assembler records (the slide right after
the fixed front matter). -/
def lyricSource (template : Package) : Slide :=
  template.slides.getD FIXED_FRONT_MATTER_COUNT defaultSlide

/-- The slide list of a generation result (empty on failure: no output
file is written). -/
def outputOrEmpty (r : Except GenError Package) : List Slide :=
  match r with
  | .ok p => p.slides
  | .error _ => []

/-! ## Concrete test fixture (the spec's example scenario) -/

/-- A concrete layout for the fixture template. -/
def fixtureLayout : Layout :=
  { id := 10, themeRef := 7, defaultShapes := [defaultShape] }

/-- Fixture title shape (in the title band of `fixtureBands`). -/
def fixtureTitleShape : Shape :=
  { box := { top := 0, left := 0, width := 100, height := 10 },
    paragraphs := [{ runs := [{ text := "TITLE", fmt := 3 }], bullet := false }] }

/-- Fixture body shape (in the body band of `fixtureBands`). -/
def fixtureBodyShape : Shape :=
  { box := { top := 30, left := 0, width := 100, height := 40 },
    paragraphs := [{ runs := [{ text := "BODY", fmt := 4 }], bullet := true }] }

/-- Fixture page-number shape (bottom-right quadrant of
`fixtureBands`). -/
def fixturePnShape : Shape :=
  { box := { top := 90, left := 80, width := 10, height := 5 },
    paragraphs := [{ runs := [{ text := "9/9", fmt := 5 }], bullet := false }] }

/-- Fixture band thresholds. -/
def fixtureBands : BandConfig :=
  { titleLow := 0, titleHigh := 10, bodyLow := 20, bodyHigh := 60,
    pnTop := 85, pnLeft := 70 }

/-- Fixture front-matter shape number `k`. -/
def fixtureFrontShape (k : Nat) : Shape :=
  { box := { top := 70, left := 0, width := 1, height := 1 },
    paragraphs := [{ runs := [{ text := toString k, fmt := k }], bullet := false }] }

/-- Fixture front-matter slide number `k`. -/
def fixtureFront (k : Nat) : Slide :=
  { layout := fixtureLayout, shapes := [fixtureFrontShape k] }

/-- Fixture lyric-template slide. -/
def fixtureLyricTmpl : Slide :=
  { layout := fixtureLayout,
    shapes := [fixtureTitleShape, fixtureBodyShape, fixturePnShape] }

/-- Fixture template package: two front-matter slides, the lyric-template
slide, one trailing blank slide. -/
def fixtureTemplate : Package :=
  { slides := [fixtureFront 0, fixtureFront 1, fixtureLyricTmpl,
      { layout := fixtureLayout, shapes := [] }] }

/-- A fixture template with only two slides (the spec's failure
scenario). -/
def fixtureShortTemplate : Package :=
  { slides := [fixtureFront 0, fixtureFront 1] }

/-- The spec's example song input. -/
def fixtureSongs : List Song :=
  [{ title := "Oceans", bodies := [["l1", "l2"], ["l3", "l4"]] },
   { title := "10000 Reasons by Matt Redman", bodies := [["l5", "l6"]] }]

/-- The assembled fixture output package. -/
def fixtureOut : Package :=
  match assemble fixtureBands fixtureTemplate fixtureSongs with
  | .ok p => p
  | .error _ => { slides := [] }

end LyricsToSlides

namespace LyricsToSlides

/-! ## Lemmas: title derivation -/

theorem isPrefixOf_append_self (l t : List Char) : l.isPrefixOf (l ++ t) = true := by
  rw [List.isPrefixOf_iff_prefix]
  exact List.prefix_append l t

theorem takeBeforeSep_initial (sep l : List Char) :
    ∃ rest, l = takeBeforeSep sep l ++ rest := by
  induction l with
  | nil => exact ⟨[], rfl⟩
  | cons c rest ih =>
    cases h : sep.isPrefixOf (c :: rest) with
    | true => exact ⟨c :: rest, by simp [takeBeforeSep, h]⟩
    | false =>
      obtain ⟨r, hr⟩ := ih
      refine ⟨r, ?_⟩
      simp only [takeBeforeSep, h, Bool.false_eq_true, if_false, List.cons_append,
        List.cons.injEq, true_and]
      exact hr

theorem takeBeforeSep_min (sep v : List Char) :
    ∀ u : List Char, (takeBeforeSep sep (u ++ sep ++ v)).length ≤ u.length := by
  intro u
  induction u with
  | nil =>
    cases sep with
    | nil =>
      cases v with
      | nil => simp [takeBeforeSep]
      | cons a as => simp [takeBeforeSep, List.isPrefixOf]
    | cons s ss =>
      have h := isPrefixOf_append_self (s :: ss) v
      simp only [List.nil_append]
      rw [List.cons_append]
      simp only [takeBeforeSep]
      rw [← List.cons_append, h]
      simp
  | cons c u' ih =>
    simp only [List.cons_append, takeBeforeSep]
    cases h : sep.isPrefixOf (c :: (u' ++ sep ++ v)) with
    | true => simp
    | false =>
      simp only [Bool.false_eq_true, if_false, List.length_cons]
      exact Nat.succ_le_succ ih

theorem takeBeforeSep_of_no_segment (sep l : List Char)
    (h : hasSegment sep l = false) : takeBeforeSep sep l = l := by
  induction l with
  | nil => rfl
  | cons c rest ih =>
    simp only [hasSegment, Bool.or_eq_false_iff] at h
    simp only [takeBeforeSep, h.1, Bool.false_eq_true, if_false, List.cons.injEq, true_and]
    exact ih h.2

theorem head?_dropWhile_false {α : Type} (p : α → Bool) (l : List α) (c : α)
    (h : (l.dropWhile p).head? = some c) : p c = false := by
  induction l with
  | nil => simp [List.dropWhile] at h
  | cons a as ih =>
    cases hpa : p a with
    | true =>
      rw [List.dropWhile_cons, if_pos (by simp [hpa])] at h
      exact ih h
    | false =>
      rw [List.dropWhile_cons, if_neg (by simp [hpa])] at h
      simp only [List.head?_cons, Option.some.injEq] at h
      rwa [← h]

theorem head?_append_of_some {α : Type} {x y : List α} {c : α}
    (h : x.head? = some c) : (x ++ y).head? = some c := by
  cases x with
  | nil => simp at h
  | cons a as => simpa using h

theorem stripChars_head (l : List Char) (c : Char)
    (h : (stripChars l).head? = some c) : c.isWhitespace = false := by
  obtain ⟨t, ht⟩ :=
    List.dropWhile_suffix (l := (l.dropWhile Char.isWhitespace).reverse) Char.isWhitespace
  have h2 := congrArg List.reverse ht
  rw [List.reverse_append, List.reverse_reverse] at h2
  have ha2 : l.dropWhile Char.isWhitespace = stripChars l ++ t.reverse := by
    simpa [stripChars] using h2.symm
  apply head?_dropWhile_false Char.isWhitespace l c
  rw [ha2]
  exact head?_append_of_some h

theorem stripChars_getLast (l : List Char) (c : Char)
    (h : (stripChars l).getLast? = some c) : c.isWhitespace = false := by
  have h2 : ((l.dropWhile Char.isWhitespace).reverse.dropWhile Char.isWhitespace).head?
      = some c := by
    rw [← List.getLast?_reverse]
    exact h
  exact head?_dropWhile_false Char.isWhitespace _ c h2

/-! ## Claims C4, C5, C10: title derivation -/

/-- C4: the display-title derivation splits the song title on `" by "`
and keeps only the (stripped) text before the first occurrence:
`"Amazing Grace by John Newton"` ↦ `"Amazing Grace"`, `"Oceans"` ↦
`"Oceans"`, `"A by B by C"` ↦ `"A"`; moreover the kept segment is an
initial segment of the title that ends at or before any occurrence of
the delimiter. -/
theorem display_title_split_first :
    display_title "Amazing Grace by John Newton" = "Amazing Grace" ∧
    display_title "Oceans" = "Oceans" ∧
    display_title "A by B by C" = "A" ∧
    (∀ l : List Char, ∃ rest, l = takeBeforeSep bySep l ++ rest) ∧
    (∀ u v : List Char, (takeBeforeSep bySep (u ++ bySep ++ v)).length ≤ u.length) :=
  ⟨by decide, by decide, by decide,
   fun l => takeBeforeSep_initial bySep l,
   fun u v => takeBeforeSep_min bySep v u⟩

/-- C5 counterexample: `" Oceans"` contains no `" by "` delimiter, yet
the derived display title is `"Oceans"`, not the unchanged original
(`.strip()` is always applied). -/
theorem display_title_unchanged_cex :
    hasSegment bySep (" Oceans").data = false ∧
    display_title " Oceans" ≠ " Oceans" := by
  decide

/-- C5 (amended): for every song title without the `" by "` delimiter the
derived display title is the original title stripped of leading and
trailing whitespace (hence unchanged exactly when the title carries
none). -/
theorem display_title_no_delimiter (t : String)
    (h : hasSegment bySep t.data = false) :
    display_title t = String.mk (stripChars t.data) := by
  unfold display_title
  rw [takeBeforeSep_of_no_segment bySep t.data h]

/-- Witness for `display_title_no_delimiter` at the title `"Oceans"`. -/
theorem display_title_no_delimiter_witness :
    hasSegment bySep ("Oceans").data = false ∧
    display_title "Oceans" = String.mk (stripChars ("Oceans").data) :=
  ⟨by decide, display_title_no_delimiter "Oceans" (by decide)⟩

/-- C10: the derived display title never carries leading or trailing
whitespace. -/
theorem display_title_no_edge_whitespace (t : String) :
    (∀ c : Char, (display_title t).data.head? = some c → c.isWhitespace = false) ∧
    (∀ c : Char, (display_title t).data.getLast? = some c → c.isWhitespace = false) :=
  ⟨fun c h => stripChars_head _ c h, fun c h => stripChars_getLast _ c h⟩

/-- Witness for `display_title_no_edge_whitespace` at the title
`" Amazing Grace by John Newton "`. -/
theorem display_title_no_edge_whitespace_witness :
    (display_title " Amazing Grace by John Newton ").data.head? = some 'A' ∧
    ('A').isWhitespace = false :=
  ⟨by decide,
   (display_title_no_edge_whitespace " Amazing Grace by John Newton ").1 'A' (by decide)⟩

/-! ## Lemmas: slide directory, separator insertion, loop structure -/

theorem package_eq_of_slides {p q : Package} (h : p.slides = q.slides) : p = q := by
  cases p; cases q; cases h; rfl

theorem updateAt_cons_zero {α : Type} (f : α → α) (a : α) (as : List α) :
    updateAt 0 f (a :: as) = f a :: as := rfl

theorem updateAt_cons_succ {α : Type} (n : Nat) (f : α → α) (a : α) (as : List α) :
    updateAt (n + 1) f (a :: as) = a :: updateAt n f as := rfl

theorem updateAt_append_singleton {α : Type} (l : List α) (a : α) (f : α → α) :
    updateAt l.length f (l ++ [a]) = l ++ [f a] := by
  induction l with
  | nil => rfl
  | cons x xs ih =>
    rw [List.length_cons, List.cons_append, updateAt_cons_succ, ih, List.cons_append]

theorem updateAt_get?_self {α : Type} (f : α → α) :
    ∀ (l : List α) (i : Nat), (updateAt i f l).get? i = (l.get? i).map f := by
  intro l
  induction l with
  | nil => intro i; cases i <;> rfl
  | cons a as ih =>
    intro i
    cases i with
    | zero => rfl
    | succ n => rw [updateAt_cons_succ]; exact ih n

theorem insert_blank_separator_eq (prs : Package) (sep : Slide) :
    insert_blank_separator prs sep = { slides := prs.slides ++ [blankSeparator sep] } := by
  show removeAllShapesAt (add_slide prs sep.layout) prs.slides.length = _
  unfold removeAllShapesAt add_slide
  apply package_eq_of_slides
  exact updateAt_append_singleton prs.slides _ _

theorem trimLoop_slides (k : Nat) :
    ∀ p : Package, (trimLoop k p).slides = p.slides.take (p.slides.length - k) := by
  induction k with
  | zero => intro p; rw [Nat.sub_zero, List.take_length]; rfl
  | succ k ih =>
    intro p
    show (trimLoop k (delete_last p)).slides = _
    rw [ih (delete_last p)]
    show p.slides.dropLast.take (p.slides.dropLast.length - k) = _
    rw [List.length_dropLast, List.dropLast_eq_take, List.take_take]
    congr 1
    omega

theorem trimLoop_eq_iterate (k : Nat) : ∀ p : Package, trimLoop k p = delete_last^[k] p := by
  induction k with
  | zero => intro p; rfl
  | succ k ih =>
    intro p
    show trimLoop k (delete_last p) = _
    rw [Function.iterate_succ_apply]
    exact ih (delete_last p)

theorem trim_to_ok (p : Package) (n : Nat) (h : n ≤ slide_count p) :
    trim_to p n = .ok { slides := p.slides.take n } := by
  unfold trim_to
  rw [if_neg (by omega)]
  refine congrArg Except.ok (package_eq_of_slides ?_)
  rw [trimLoop_slides]
  congr 1
  unfold slide_count at h ⊢
  omega

theorem trim_to_err (p : Package) (n : Nat) (h : slide_count p < n) :
    trim_to p n = .error .TemplateTooShort := by
  unfold trim_to
  rw [if_pos h]

theorem appendChunks_eq (cfg : BandConfig) (tmpl : Slide) (dt : String) (total : Nat) :
    ∀ (chunks : List (List String)) (cur : Nat) (p : Package),
    appendChunks cfg tmpl dt total cur chunks p =
      { slides := p.slides ++ lyricSlides cfg tmpl dt total cur chunks } := by
  intro chunks
  induction chunks with
  | nil =>
    intro cur p
    apply package_eq_of_slides
    show p.slides = p.slides ++ lyricSlides cfg tmpl dt total cur []
    simp [lyricSlides]
  | cons chunk rest ih =>
    intro cur p
    show appendChunks cfg tmpl dt total (cur + 1) rest
        { slides := p.slides ++ [makeLyricSlide cfg tmpl dt chunk cur total] } = _
    rw [ih]
    apply package_eq_of_slides
    show (p.slides ++ [makeLyricSlide cfg tmpl dt chunk cur total]) ++
        lyricSlides cfg tmpl dt total (cur + 1) rest = _
    rw [List.append_assoc]
    rfl

theorem appendSongSlides_eq (cfg : BandConfig) (tmpl : Slide) (song : Song) (p : Package) :
    appendSongSlides cfg tmpl song p =
      { slides := p.slides ++ songLyricSlides cfg tmpl song } :=
  appendChunks_eq cfg tmpl (display_title song.title) song.bodies.length song.bodies 1 p

theorem processSongs_eq (cfg : BandConfig) (sepTmpl tmpl : Slide) :
    ∀ (songs : List Song) (i : Nat) (p : Package),
    processSongs cfg sepTmpl tmpl i songs p =
      { slides := p.slides ++ songBlocks cfg sepTmpl tmpl i songs } := by
  intro songs
  induction songs with
  | nil =>
    intro i p
    apply package_eq_of_slides
    show p.slides = p.slides ++ songBlocks cfg sepTmpl tmpl i []
    simp [songBlocks]
  | cons song rest ih =>
    intro i p
    show processSongs cfg sepTmpl tmpl (i + 1) rest
        (appendSongSlides cfg tmpl song (if 0 < i then insert_blank_separator p sepTmpl else p)) = _
    rw [appendSongSlides_eq, ih]
    apply package_eq_of_slides
    by_cases hi : 0 < i
    · rw [if_pos hi, insert_blank_separator_eq]
      show ((p.slides ++ [blankSeparator sepTmpl]) ++ songLyricSlides cfg tmpl song) ++
          songBlocks cfg sepTmpl tmpl (i + 1) rest = _
      simp [songBlocks, hi, List.append_assoc]
    · rw [if_neg hi]
      show (p.slides ++ songLyricSlides cfg tmpl song) ++
          songBlocks cfg sepTmpl tmpl (i + 1) rest = _
      simp [songBlocks, hi, List.append_assoc]

theorem songBlocksSep_cons (cfg : BandConfig) (sepTmpl tmpl : Slide) (s : Song)
    (rest : List Song) :
    songBlocksSep cfg sepTmpl tmpl (s :: rest) =
      blankSeparator sepTmpl ::
        (songLyricSlides cfg tmpl s ++ songBlocksSep cfg sepTmpl tmpl rest) := by
  simp [songBlocksSep]

theorem songBlocks_shift (cfg : BandConfig) (sepTmpl tmpl : Slide) :
    ∀ (songs : List Song) (m : Nat),
    songBlocks cfg sepTmpl tmpl (m + 1) songs = songBlocksSep cfg sepTmpl tmpl songs := by
  intro songs
  induction songs with
  | nil => intro m; simp [songBlocks, songBlocksSep]
  | cons s rest ih =>
    intro m
    show (if 0 < m + 1 then [blankSeparator sepTmpl] else []) ++
        songLyricSlides cfg tmpl s ++ songBlocks cfg sepTmpl tmpl (m + 2) rest = _
    rw [if_pos (Nat.succ_pos m), ih (m + 1), songBlocksSep_cons]
    rfl

theorem songBlocks_zero_cons (cfg : BandConfig) (sepTmpl tmpl : Slide) (s : Song)
    (rest : List Song) :
    songBlocks cfg sepTmpl tmpl 0 (s :: rest) =
      songLyricSlides cfg tmpl s ++ songBlocksSep cfg sepTmpl tmpl rest := by
  show (if 0 < 0 then [blankSeparator sepTmpl] else []) ++
      songLyricSlides cfg tmpl s ++ songBlocks cfg sepTmpl tmpl 1 rest = _
  rw [if_neg (by omega), songBlocks_shift]
  rfl

/-! ## Lemmas: the assembled package -/

theorem assemble_eq_of_trim (cfg : BandConfig) (tpl : Package) (songs : List Song)
    (trimmed : Package)
    (h : trim_to tpl (FIXED_FRONT_MATTER_COUNT + 1) = .ok trimmed) :
    assemble cfg tpl songs = .ok (Package.mk
      ((processSongs cfg (trimmed.slides.getD 1 defaultSlide)
        (trimmed.slides.getD FIXED_FRONT_MATTER_COUNT defaultSlide)
        0 songs trimmed).slides.eraseIdx FIXED_FRONT_MATTER_COUNT)) := by
  unfold assemble
  rw [h]

theorem assemble_ok (cfg : BandConfig) (tpl : Package) (songs : List Song)
    (h : FIXED_FRONT_MATTER_COUNT + 1 ≤ slide_count tpl) :
    assemble cfg tpl songs = .ok (Package.mk
      (tpl.slides.take FIXED_FRONT_MATTER_COUNT ++
        songBlocks cfg (separatorSource tpl) (lyricSource tpl) 0 songs)) := by
  rw [assemble_eq_of_trim cfg tpl songs _ (trim_to_ok tpl _ h)]
  refine congrArg Except.ok (package_eq_of_slides ?_)
  have hsep : ((tpl.slides.take (FIXED_FRONT_MATTER_COUNT + 1) : List Slide)).getD 1
      defaultSlide = separatorSource tpl := by
    unfold separatorSource
    rw [List.getD_eq_get?, List.getD_eq_get?, List.get?_take (by decide)]
  have hlyr : ((tpl.slides.take (FIXED_FRONT_MATTER_COUNT + 1) : List Slide)).getD
      FIXED_FRONT_MATTER_COUNT defaultSlide = lyricSource tpl := by
    unfold lyricSource
    rw [List.getD_eq_get?, List.getD_eq_get?, List.get?_take (by decide)]
  show (processSongs cfg _ _ 0 songs { slides := tpl.slides.take (FIXED_FRONT_MATTER_COUNT + 1) }).slides.eraseIdx FIXED_FRONT_MATTER_COUNT = _
  rw [processSongs_eq]
  show (tpl.slides.take (FIXED_FRONT_MATTER_COUNT + 1) ++ _).eraseIdx FIXED_FRONT_MATTER_COUNT = _
  rw [List.eraseIdx_append_of_lt_length
    (by rw [List.length_take]; unfold slide_count at h; omega)]
  rw [hsep, hlyr]
  congr 1
  rw [List.eraseIdx_eq_take_drop_succ, List.take_take, List.drop_take]
  show (tpl.slides.take (2 ⊓ 3) : List Slide) ++ (tpl.slides.drop 3).take 0 = _
  simp [FIXED_FRONT_MATTER_COUNT]

theorem assemble_err (cfg : BandConfig) (tpl : Package) (songs : List Song)
    (h : slide_count tpl < FIXED_FRONT_MATTER_COUNT + 1) :
    assemble cfg tpl songs = .error .TemplateTooShort := by
  unfold assemble
  rw [trim_to_err tpl _ h]

theorem assemble_ok_inv (cfg : BandConfig) (tpl : Package) (songs : List Song)
    (p : Package) (h : assemble cfg tpl songs = .ok p) :
    FIXED_FRONT_MATTER_COUNT + 1 ≤ slide_count tpl ∧
    p.slides = tpl.slides.take FIXED_FRONT_MATTER_COUNT ++
      songBlocks cfg (separatorSource tpl) (lyricSource tpl) 0 songs := by
  by_cases hlen : FIXED_FRONT_MATTER_COUNT + 1 ≤ slide_count tpl
  · refine ⟨hlen, ?_⟩
    rw [assemble_ok cfg tpl songs hlen] at h
    cases h
    rfl
  · rw [assemble_err cfg tpl songs (by omega)] at h
    cases h

/-! ## Lemmas: slide counts -/

theorem lyricSlides_length (cfg : BandConfig) (tmpl : Slide) (dt : String) (total : Nat) :
    ∀ (chunks : List (List String)) (cur : Nat),
    (lyricSlides cfg tmpl dt total cur chunks).length = chunks.length := by
  intro chunks
  induction chunks with
  | nil => intro cur; rfl
  | cons c rest ih =>
    intro cur
    show (makeLyricSlide cfg tmpl dt c cur total ::
      lyricSlides cfg tmpl dt total (cur + 1) rest).length = _
    rw [List.length_cons, ih (cur + 1), List.length_cons]

theorem songLyricSlides_length (cfg : BandConfig) (tmpl : Slide) (song : Song) :
    (songLyricSlides cfg tmpl song).length = song.bodies.length :=
  lyricSlides_length cfg tmpl (display_title song.title) song.bodies.length song.bodies 1

theorem sumBodies_cons (s : Song) (rest : List Song) :
    sumBodies (s :: rest) = s.bodies.length + sumBodies rest := by
  simp [sumBodies]

theorem songBlocksSep_length (cfg : BandConfig) (sepTmpl tmpl : Slide) :
    ∀ songs : List Song,
    (songBlocksSep cfg sepTmpl tmpl songs).length = sumBodies songs + songs.length := by
  intro songs
  induction songs with
  | nil => rfl
  | cons s rest ih =>
    rw [songBlocksSep_cons, List.length_cons, List.length_append,
      songLyricSlides_length, ih, sumBodies_cons, List.length_cons]
    omega

theorem songBlocks_zero_length (cfg : BandConfig) (sepTmpl tmpl : Slide)
    (songs : List Song) :
    (songBlocks cfg sepTmpl tmpl 0 songs).length = sumBodies songs + (songs.length - 1) := by
  cases songs with
  | nil => rfl
  | cons s rest =>
    rw [songBlocks_zero_cons, List.length_append, songLyricSlides_length,
      songBlocksSep_length, sumBodies_cons, List.length_cons]
    omega

/-! ## Claim C1: slide count law -/

/-- C1: for any template tall enough to assemble and any song list, the
final slide count is `FIXED_FRONT_MATTER_COUNT + Σ bodies_i + max(N-1, 0)`
(the truncated `N - 1` of ℕ), with the lyric-template slide deleted. -/
theorem assemble_slide_count (cfg : BandConfig) (tpl : Package) (songs : List Song)
    (p : Package) (h : assemble cfg tpl songs = .ok p) :
    slide_count p = FIXED_FRONT_MATTER_COUNT + sumBodies songs + (songs.length - 1) := by
  obtain ⟨hlen, hp⟩ := assemble_ok_inv cfg tpl songs p h
  unfold slide_count
  rw [hp, List.length_append, List.length_take, songBlocks_zero_length]
  unfold slide_count at hlen
  omega

/-- Witness for `assemble_slide_count`: the spec's example scenario
(2 front-matter slides, songs with 2 and 1 body chunks) yields
`2 + 3 + 1 = 6` slides. -/
theorem assemble_slide_count_witness :
    assemble fixtureBands fixtureTemplate fixtureSongs = .ok fixtureOut ∧
    slide_count fixtureOut = 6 :=
  ⟨rfl, (assemble_slide_count fixtureBands fixtureTemplate fixtureSongs
      fixtureOut rfl).trans (by decide)⟩

/-! ## Claim C2: separator placement -/

/-- C2: in the assembled output the song region starts with the first
song's lyric slides with no separator before them, and every later song
is preceded by exactly one blank separator slide: the slides after the
front matter are `lyrics s₀ ++ (sep :: lyrics s₁) ++ (sep :: lyrics s₂) ++ …`. -/
theorem assemble_separator_placement (cfg : BandConfig) (tpl : Package)
    (songs : List Song) (p : Package) (h : assemble cfg tpl songs = .ok p) :
    (songs = [] → p.slides = tpl.slides.take FIXED_FRONT_MATTER_COUNT) ∧
    (∀ s0 rest, songs = s0 :: rest →
      p.slides = tpl.slides.take FIXED_FRONT_MATTER_COUNT ++
        (songLyricSlides cfg (lyricSource tpl) s0 ++
          (rest.map (fun s => blankSeparator (separatorSource tpl) ::
            songLyricSlides cfg (lyricSource tpl) s)).flatten)) := by
  obtain ⟨hlen, hp⟩ := assemble_ok_inv cfg tpl songs p h
  constructor
  · intro hnil
    rw [hp, hnil]
    simp [songBlocks]
  · intro s0 rest hcons
    rw [hp, hcons, songBlocks_zero_cons]
    rfl

/-- Witness for `assemble_separator_placement`: in the example scenario
the slides after the front matter are song 1's two lyric slides, one
blank separator, then song 2's lyric slide. -/
theorem assemble_separator_placement_witness :
    fixtureOut.slides = fixtureTemplate.slides.take FIXED_FRONT_MATTER_COUNT ++
      (songLyricSlides fixtureBands (lyricSource fixtureTemplate)
          { title := "Oceans", bodies := [["l1", "l2"], ["l3", "l4"]] } ++
        ([({ title := "10000 Reasons by Matt Redman", bodies := [["l5", "l6"]] } : Song)].map
          (fun s => blankSeparator (separatorSource fixtureTemplate) ::
            songLyricSlides fixtureBands (lyricSource fixtureTemplate) s)).flatten) :=
  (assemble_separator_placement fixtureBands fixtureTemplate fixtureSongs
    fixtureOut rfl).2 _ _ rfl

/-! ## Claim C3: separator purity -/

/-- C3: every slide `insert_blank_separator` produces has zero shapes and
is bound to the same layout as its source slide, hence carries the same
master/theme and background theme reference. -/
theorem insert_blank_separator_blank (prs : Package) (sep : Slide) :
    (insert_blank_separator prs sep).slides =
      prs.slides ++ [blankSeparator sep] ∧
    (blankSeparator sep).shapes = [] ∧
    (blankSeparator sep).layout = sep.layout ∧
    (blankSeparator sep).layout.themeRef = sep.layout.themeRef :=
  ⟨by rw [insert_blank_separator_eq], rfl, rfl, rfl⟩

/-! ## Claim C9: the separator template is untouched -/

/-- C9: `insert_blank_separator` only appends a new blank slide; every
existing slide of the package — in particular the separator-template
slide passed to it, wherever it sits — keeps its shape tree and layout
binding unchanged. -/
theorem insert_blank_separator_frame (prs : Package) (sep : Slide) (k : Nat)
    (h : k < prs.slides.length) :
    (insert_blank_separator prs sep).slides.get? k = prs.slides.get? k := by
  rw [insert_blank_separator_eq]
  exact List.get?_append h

/-- Witness for `insert_blank_separator_frame`: inserting a separator into
the fixture template leaves the template slide at index 1 unchanged. -/
theorem insert_blank_separator_frame_witness :
    (1 : Nat) < fixtureTemplate.slides.length ∧
    (insert_blank_separator fixtureTemplate (fixtureFront 1)).slides.get? 1 =
      fixtureTemplate.slides.get? 1 :=
  ⟨by decide, insert_blank_separator_frame fixtureTemplate (fixtureFront 1) 1 (by decide)⟩

/-! ## Claim C7: trim_to and TemplateTooShort -/

/-- C7: `trim_to` repeatedly invokes `delete_last` until the slide count
equals `n`; it fails with `TemplateTooShort` exactly when `n` exceeds the
package's initial slide count; and on that failure the assembler
produces no output package. -/
theorem trim_to_spec (p : Package) (n : Nat) :
    (n ≤ slide_count p →
      trim_to p n = .ok (delete_last^[slide_count p - n] p) ∧
      slide_count (delete_last^[slide_count p - n] p) = n) ∧
    (trim_to p n = .error .TemplateTooShort ↔ slide_count p < n) ∧
    (∀ (cfg : BandConfig) (songs : List Song),
      slide_count p < FIXED_FRONT_MATTER_COUNT + 1 →
      assemble cfg p songs = .error .TemplateTooShort) := by
  refine ⟨?_, ⟨?_, ?_⟩, ?_⟩
  · intro h
    constructor
    · rw [trim_to_ok p n h]
      refine congrArg Except.ok (package_eq_of_slides ?_)
      rw [← trimLoop_eq_iterate, trimLoop_slides]
      unfold slide_count at h ⊢
      show p.slides.take n = p.slides.take (p.slides.length - (p.slides.length - n))
      congr 1
      omega
    · rw [← trimLoop_eq_iterate]
      unfold slide_count
      rw [trimLoop_slides, List.length_take]
      unfold slide_count at h
      omega
  · intro herr
    by_contra hge
    push_neg at hge
    rw [trim_to_ok p n hge] at herr
    cases herr
  · intro hlt
    exact trim_to_err p n hlt
  · intro cfg songs hshort
    exact assemble_err cfg p songs hshort

/-- Witness for `trim_to_spec`: trimming the 4-slide fixture template to
3 slides deletes one slide; the 2-slide fixture template makes the
assembler fail with `TemplateTooShort`. -/
theorem trim_to_spec_witness :
    trim_to fixtureTemplate 3 = .ok (delete_last^[1] fixtureTemplate) ∧
    slide_count (delete_last^[1] fixtureTemplate) = 3 ∧
    (trim_to fixtureShortTemplate 3 = .error .TemplateTooShort ↔
      slide_count fixtureShortTemplate < 3) ∧
    assemble fixtureBands fixtureShortTemplate fixtureSongs =
      .error .TemplateTooShort := by
  refine ⟨?_, ?_, ?_, ?_⟩
  · exact ((trim_to_spec fixtureTemplate 3).1 (by decide)).1
  · exact ((trim_to_spec fixtureTemplate 3).1 (by decide)).2
  · exact (trim_to_spec fixtureShortTemplate 3).2.1
  · exact (trim_to_spec fixtureShortTemplate 3).2.2 fixtureBands fixtureSongs (by decide)

/-! ## Lemmas: output membership (C6) -/

theorem mem_songBlocksSep (cfg : BandConfig) (sepTmpl tmpl : Slide)
    (songs : List Song) (s : Slide) (hs : s ∈ songBlocksSep cfg sepTmpl tmpl songs) :
    s = blankSeparator sepTmpl ∨
    ∃ song ∈ songs, s ∈ songLyricSlides cfg tmpl song := by
  unfold songBlocksSep at hs
  rw [List.mem_flatten] at hs
  obtain ⟨l, hl, hsl⟩ := hs
  rw [List.mem_map] at hl
  obtain ⟨song, hsong, rfl⟩ := hl
  rw [List.mem_cons] at hsl
  cases hsl with
  | inl h => exact Or.inl h
  | inr h => exact Or.inr ⟨song, hsong, h⟩

theorem mem_songBlocks_zero (cfg : BandConfig) (sepTmpl tmpl : Slide)
    (songs : List Song) (s : Slide) (hs : s ∈ songBlocks cfg sepTmpl tmpl 0 songs) :
    s = blankSeparator sepTmpl ∨
    ∃ song ∈ songs, s ∈ songLyricSlides cfg tmpl song := by
  cases songs with
  | nil => simp [songBlocks] at hs
  | cons s0 rest =>
    rw [songBlocks_zero_cons, List.mem_append] at hs
    cases hs with
    | inl h => exact Or.inr ⟨s0, List.mem_cons_self s0 rest, h⟩
    | inr h =>
      cases mem_songBlocksSep cfg sepTmpl tmpl rest s h with
      | inl h2 => exact Or.inl h2
      | inr h2 =>
        obtain ⟨song, hsong, hmem⟩ := h2
        exact Or.inr ⟨song, List.mem_cons_of_mem s0 hsong, hmem⟩

/-! ## Claim C6: composition of the final output -/

/-- C6 counterexample: in the example scenario the separator-template
slide (`prs.slides[1]`, the second front-matter slide) does remain in the
assembled output. -/
theorem separator_template_remains_cex :
    assemble fixtureBands fixtureTemplate fixtureSongs = .ok fixtureOut ∧
    separatorSource fixtureTemplate ∈ fixtureOut.slides :=
  ⟨rfl, by decide⟩

/-- C6 (amended): the assembled output consists only of the fixed
front-matter slides, inserted blank separator slides, and generated lyric
slides — the lyric-template slide is deleted — but the separator-template
slide is the second front-matter slide and remains in the output as front
matter. -/
theorem assemble_composition (cfg : BandConfig) (tpl : Package) (songs : List Song)
    (p : Package) (h : assemble cfg tpl songs = .ok p) :
    (∀ s ∈ p.slides,
      s ∈ tpl.slides.take FIXED_FRONT_MATTER_COUNT ∨
      s = blankSeparator (separatorSource tpl) ∨
      ∃ song ∈ songs, s ∈ songLyricSlides cfg (lyricSource tpl) song) ∧
    p.slides.take FIXED_FRONT_MATTER_COUNT =
      tpl.slides.take FIXED_FRONT_MATTER_COUNT := by
  obtain ⟨hlen, hp⟩ := assemble_ok_inv cfg tpl songs p h
  have hfront : (tpl.slides.take FIXED_FRONT_MATTER_COUNT).length =
      FIXED_FRONT_MATTER_COUNT := by
    rw [List.length_take]
    unfold slide_count at hlen
    omega
  constructor
  · intro s hsmem
    rw [hp, List.mem_append] at hsmem
    cases hsmem with
    | inl hm => exact Or.inl hm
    | inr hm =>
      exact Or.inr (mem_songBlocks_zero cfg (separatorSource tpl) (lyricSource tpl)
        songs s hm)
  · rw [hp]
    have := List.take_left (tpl.slides.take FIXED_FRONT_MATTER_COUNT)
      (songBlocks cfg (separatorSource tpl) (lyricSource tpl) 0 songs)
    rw [hfront] at this
    exact this

/-- Witness for `assemble_composition`: in the example scenario the
output's front matter equals the template's front matter. -/
theorem assemble_composition_witness :
    fixtureOut.slides.take FIXED_FRONT_MATTER_COUNT =
      fixtureTemplate.slides.take FIXED_FRONT_MATTER_COUNT :=
  (assemble_composition fixtureBands fixtureTemplate fixtureSongs fixtureOut rfl).2

/-! ## Lemmas: page-number substitution (C8) -/

theorem parasFirstText?_replParasFirst (text : String) :
    ∀ paras : List Paragraph, paras.any (fun p => !p.runs.isEmpty) = true →
    parasFirstText? (replParasFirst text paras) = some text := by
  intro paras
  induction paras with
  | nil => intro h; simp at h
  | cons p ps ih =>
    intro h
    cases hru : p.runs with
    | nil =>
      have hres : replParasFirst text (p :: ps) = p :: replParasFirst text ps := by
        simp only [replParasFirst]
        rw [hru, List.isEmpty_nil, if_pos rfl]
      rw [hres]
      unfold parasFirstText?
      rw [List.find?_cons_of_neg _ (by simp [hru])]
      have hps : ps.any (fun q => !q.runs.isEmpty) = true := by
        rw [List.any_cons, hru] at h
        simpa using h
      exact ih hps
    | cons r rs =>
      have hres : replParasFirst text (p :: ps) =
          { p with runs := replRunsHead text p.runs } :: ps := by
        simp only [replParasFirst]
        rw [hru, List.isEmpty_cons]
        simp [hru]
      rw [hres]
      unfold parasFirstText?
      rw [List.find?_cons_of_pos _ (by simp [replRunsHead, hru])]
      simp [replRunsHead, hru]

theorem set_page_number_writes (cfg : BandConfig) (s : Slide) (cur tot idx : Nat)
    (hloc : locateRole cfg .PageNumber s.shapes = some idx)
    (hrun : shapeHasRun (s.shapes.getD idx defaultShape) = true) :
    firstRunText? ((set_page_number cfg s cur tot).shapes.getD idx defaultShape) =
      some (pageNumberText cur tot) := by
  unfold set_page_number
  rw [hloc]
  show firstRunText? ((updateAt idx (shapeReplaceFirstRun (pageNumberText cur tot))
    s.shapes).getD idx defaultShape) = some (pageNumberText cur tot)
  rw [List.getD_eq_get?, updateAt_get?_self]
  rw [List.getD_eq_get?] at hrun
  cases hq : s.shapes.get? idx with
  | none =>
    rw [hq] at hrun
    simp [shapeHasRun, defaultShape] at hrun
  | some sh =>
    rw [hq] at hrun
    show firstRunText? (shapeReplaceFirstRun (pageNumberText cur tot) sh) = _
    unfold firstRunText? shapeReplaceFirstRun
    unfold shapeHasRun at hrun
    exact parasFirstText?_replParasFirst (pageNumberText cur tot) sh.paragraphs hrun

theorem lyricSlides_get? (cfg : BandConfig) (tmpl : Slide) (dt : String) (total : Nat) :
    ∀ (chunks : List (List String)) (cur j : Nat) (chunk : List String),
    chunks.get? j = some chunk →
    (lyricSlides cfg tmpl dt total cur chunks).get? j =
      some (makeLyricSlide cfg tmpl dt chunk (cur + j) total) := by
  intro chunks
  induction chunks with
  | nil => intro cur j chunk h; simp at h
  | cons c rest ih =>
    intro cur j chunk h
    cases j with
    | zero =>
      rw [List.get?_cons_zero, Option.some.injEq] at h
      subst h
      rfl
    | succ n =>
      rw [List.get?_cons_succ] at h
      show (lyricSlides cfg tmpl dt total (cur + 1) rest).get? n = _
      have harith : cur + (n + 1) = (cur + 1) + n := by omega
      rw [harith]
      exact ih (cur + 1) n chunk h

theorem songLyricSlides_get? (cfg : BandConfig) (tmpl : Slide) (song : Song)
    (j : Nat) (chunk : List String) (h : song.bodies.get? j = some chunk) :
    (songLyricSlides cfg tmpl song).get? j =
      some (makeLyricSlide cfg tmpl (display_title song.title) chunk (j + 1)
        song.bodies.length) := by
  have h2 := lyricSlides_get? cfg tmpl (display_title song.title) song.bodies.length
    song.bodies 1 j chunk h
  rwa [show 1 + j = j + 1 from by omega] at h2

theorem songBlocksSep_get? (cfg : BandConfig) (sepTmpl tmpl : Slide) :
    ∀ (i : Nat) (songs : List Song) (j : Nat) (song : Song) (chunk : List String),
    songs.get? i = some song → song.bodies.get? j = some chunk →
    (songBlocksSep cfg sepTmpl tmpl songs).get?
        (sumBodies (songs.take i) + i + 1 + j) =
      some (makeLyricSlide cfg tmpl (display_title song.title) chunk (j + 1)
        song.bodies.length) := by
  intro i
  induction i with
  | zero =>
    intro songs j song chunk hs hb
    cases songs with
    | nil => simp at hs
    | cons s rest =>
      rw [List.get?_cons_zero, Option.some.injEq] at hs
      subst hs
      rw [songBlocksSep_cons]
      have hidx : sumBodies ((s :: rest).take 0) + 0 + 1 + j = j + 1 := by
        show sumBodies [] + 0 + 1 + j = j + 1
        show 0 + 0 + 1 + j = j + 1
        omega
      rw [hidx, List.get?_cons_succ]
      obtain ⟨hlt, -⟩ := List.get?_eq_some.mp hb
      rw [List.get?_append (by rw [songLyricSlides_length]; omega)]
      exact songLyricSlides_get? cfg tmpl s j chunk hb
  | succ i ih =>
    intro songs j song chunk hs hb
    cases songs with
    | nil => simp at hs
    | cons s rest =>
      rw [List.get?_cons_succ] at hs
      rw [songBlocksSep_cons]
      have hidx : sumBodies ((s :: rest).take (i + 1)) + (i + 1) + 1 + j =
          (s.bodies.length + (sumBodies (rest.take i) + i + 1 + j)) + 1 := by
        rw [List.take_succ_cons, sumBodies_cons]
        omega
      rw [hidx, List.get?_cons_succ]
      rw [List.get?_append_right (by rw [songLyricSlides_length]; omega)]
      have h2 : s.bodies.length + (sumBodies (rest.take i) + i + 1 + j) -
          (songLyricSlides cfg tmpl s).length = sumBodies (rest.take i) + i + 1 + j := by
        rw [songLyricSlides_length]
        omega
      rw [h2]
      exact ih rest j song chunk hs hb

theorem songBlocks_zero_get? (cfg : BandConfig) (sepTmpl tmpl : Slide)
    (songs : List Song) (i j : Nat) (song : Song) (chunk : List String)
    (hs : songs.get? i = some song) (hb : song.bodies.get? j = some chunk) :
    (songBlocks cfg sepTmpl tmpl 0 songs).get? (sumBodies (songs.take i) + i + j) =
      some (makeLyricSlide cfg tmpl (display_title song.title) chunk (j + 1)
        song.bodies.length) := by
  cases songs with
  | nil => simp at hs
  | cons s rest =>
    rw [songBlocks_zero_cons]
    cases i with
    | zero =>
      rw [List.get?_cons_zero, Option.some.injEq] at hs
      subst hs
      have hidx : sumBodies ((s :: rest).take 0) + 0 + j = j := by
        show sumBodies [] + 0 + j = j
        show 0 + 0 + j = j
        omega
      rw [hidx]
      obtain ⟨hlt, -⟩ := List.get?_eq_some.mp hb
      rw [List.get?_append (by rw [songLyricSlides_length]; omega)]
      exact songLyricSlides_get? cfg tmpl s j chunk hb
    | succ i =>
      rw [List.get?_cons_succ] at hs
      have hidx : sumBodies ((s :: rest).take (i + 1)) + (i + 1) + j =
          s.bodies.length + (sumBodies (rest.take i) + i + 1 + j) := by
        rw [List.take_succ_cons, sumBodies_cons]
        omega
      rw [hidx]
      rw [List.get?_append_right (by rw [songLyricSlides_length]; omega)]
      have h2 : s.bodies.length + (sumBodies (rest.take i) + i + 1 + j) -
          (songLyricSlides cfg tmpl s).length = sumBodies (rest.take i) + i + 1 + j := by
        rw [songLyricSlides_length]
        omega
      rw [h2]
      exact songBlocksSep_get? cfg sepTmpl tmpl i rest j song chunk hs hb

/-! ## Claim C8: per-song page numbering -/

/-- C8: in the assembled output, the `j`-th lyric slide of song `i` is the
cloned template slide with `set_page_number (j+1) total_i` applied — the
counter restarts at 1 for every song and the total is that song's chunk
count — and whenever the slide's PageNumber-role shape is located, its
first run's text reads `"{j+1}/{total_i}"`. -/
theorem assemble_page_numbers (cfg : BandConfig) (tpl : Package) (songs : List Song)
    (p : Package) (i j idx : Nat) (song : Song) (chunk : List String)
    (hok : assemble cfg tpl songs = .ok p)
    (hs : songs.get? i = some song)
    (hb : song.bodies.get? j = some chunk)
    (hloc : locateRole cfg .PageNumber
      (preparedLyricSlide cfg (lyricSource tpl) (display_title song.title) chunk).shapes
        = some idx)
    (hrun : shapeHasRun ((preparedLyricSlide cfg (lyricSource tpl)
      (display_title song.title) chunk).shapes.getD idx defaultShape) = true) :
    p.slides.get? (FIXED_FRONT_MATTER_COUNT + sumBodies (songs.take i) + i + j) =
      some (makeLyricSlide cfg (lyricSource tpl) (display_title song.title) chunk
        (j + 1) song.bodies.length) ∧
    firstRunText? ((makeLyricSlide cfg (lyricSource tpl) (display_title song.title)
        chunk (j + 1) song.bodies.length).shapes.getD idx defaultShape) =
      some (pageNumberText (j + 1) song.bodies.length) := by
  obtain ⟨hlen, hp⟩ := assemble_ok_inv cfg tpl songs p hok
  have hfront : (tpl.slides.take FIXED_FRONT_MATTER_COUNT).length =
      FIXED_FRONT_MATTER_COUNT := by
    rw [List.length_take]
    unfold slide_count at hlen
    omega
  constructor
  · rw [hp]
    have e : FIXED_FRONT_MATTER_COUNT + sumBodies (songs.take i) + i + j =
        (tpl.slides.take FIXED_FRONT_MATTER_COUNT).length +
          (sumBodies (songs.take i) + i + j) := by
      rw [hfront]
      omega
    rw [e, List.get?_append_right (Nat.le_add_right _ _), Nat.add_sub_cancel_left]
    exact songBlocks_zero_get? cfg (separatorSource tpl) (lyricSource tpl) songs
      i j song chunk hs hb
  · exact set_page_number_writes cfg
      (preparedLyricSlide cfg (lyricSource tpl) (display_title song.title) chunk)
      (j + 1) song.bodies.length idx hloc hrun

/-- Witness for `assemble_page_numbers`: in the example scenario the
single lyric slide of the second song (output slide index 5) is numbered
`"1/1"` in its page-number shape (shape index 2). -/
theorem assemble_page_numbers_witness :
    fixtureOut.slides.get? 5 =
      some (makeLyricSlide fixtureBands (lyricSource fixtureTemplate)
        (display_title "10000 Reasons by Matt Redman") ["l5", "l6"] 1 1) ∧
    firstRunText? ((makeLyricSlide fixtureBands (lyricSource fixtureTemplate)
        (display_title "10000 Reasons by Matt Redman") ["l5", "l6"] 1 1).shapes.getD 2
        defaultShape) = some (pageNumberText 1 1) :=
  assemble_page_numbers fixtureBands fixtureTemplate fixtureSongs fixtureOut
    1 0 2 { title := "10000 Reasons by Matt Redman", bodies := [["l5", "l6"]] }
    ["l5", "l6"] rfl (by decide) (by decide) (by decide) (by decide)

end LyricsToSlides

